import Mathlib

/-!
Shallow embedding of `src/digest.py` (hndaily): a batch pipeline that
fetches Hacker News top-story ids, filters out already-seen ids against an
SQLite table, fetches details for the new ids, stores them, ranks them by
score plus comment count, and renders/sends a digest email.

Machine-level I/O (HTTP, SQLite, SendGrid) is modelled by explicit data:
an environment provides the HTTP responses, and the SQLite table is a list
of rows threaded through the functions. Raised Python exceptions are
modelled as `Except.error`.
-/

namespace HNDaily

/-- A row of the `stories` SQLite table created by `Storage._create_tables`:
columns `id` (declared UNIQUE), `title`, `url`, `score`, `comments`,
`published`. Rows are kept in insertion order, which is the order a plain
`SELECT` scans them in. -/
structure Row where
  id : Int
  title : String
  url : String
  score : Int
  comments : Int
  published : Int
deriving DecidableEq

/-- The durable storage state: the rows of the `stories` table. -/
abbrev DB := List Row

/-- A JSON object returned by the item endpoint. Fields the code reads
defensively or that may be absent are `Option`s: `item.get("type")`,
`item.get("url", "")` and the unguarded `item["descendants"]`. -/
structure HNItem where
  itemId : Int
  title : String
  url : Option String
  score : Int
  descendants : Option Int
  time : Int
  type : Option String
deriving DecidableEq

/-- An in-memory story record: the fetched item dict after
`get_stories_for_ids` added the `comments` and `hnlink` keys. These are
the fields `store_story` and the ranking step read. -/
structure StoryRecord where
  id : Int
  title : String
  url : Option String
  score : Int
  comments : Int
  time : Int
  hnlink : String
deriving DecidableEq

/-- Python repr of a tuple of integers, which is what the f-string in
`filter_known_stories` interpolates into the SQL text: `()` when empty,
`(5,)` with a trailing comma for a singleton, `(1, 2, 3)` otherwise. -/
def pyTupleRepr (ids : List Int) : String :=
  match ids with
  | [] => "()"
  | [x] => "(" ++ toString x ++ ",)"
  | _ => "(" ++ String.intercalate ", " (ids.map toString) ++ ")"

/-- Split a character list at every comma, keeping empty tokens, so a
trailing comma produces an empty final token. -/
def splitOnComma : List Char → List (List Char)
  | [] => [[]]
  | c :: rest =>
    if c = ',' then [] :: splitOnComma rest
    else
      match splitOnComma rest with
      | [] => [[c]]
      | t :: ts => (c :: t) :: ts

/-- Strip leading and trailing spaces from a character list. -/
def trimSpaces (cs : List Char) : List Char :=
  ((cs.dropWhile (fun c => c = ' ')).reverse.dropWhile (fun c => c = ' ')).reverse

/-- Parse a run of decimal digits as a natural number; `none` when empty
or when any character is not a digit. -/
def parseNatDigits (cs : List Char) : Option Nat :=
  if cs = [] then none
  else if cs.all Char.isDigit then
    some (cs.foldl (fun n c => 10 * n + (c.toNat - 48)) 0)
  else none

/-- Parse an SQL integer literal token, with an optional leading minus. -/
def parseIntToken : List Char → Option Int
  | '-' :: rest => (parseNatDigits rest).map (fun n => -(n : Int))
  | cs => (parseNatDigits cs).map (fun n => (n : Int))

/-- Parse the parenthesized value list of an SQL `IN` clause the way
SQLite accepts it: `()` (SQLite explicitly allows an empty list) or a
comma-separated sequence of integer literals, each comma followed by a
value. A trailing comma as in `(5,)` leaves an empty final token and is
rejected (`none`, modelling `sqlite3.OperationalError`). -/
def parseSqlInList (s : String) : Option (List Int) :=
  match s.data with
  | '(' :: rest =>
    if rest.getLast? = some ')' then
      let inner := rest.dropLast
      if inner = [] then some []
      else (splitOnComma inner).mapM (fun t => parseIntToken (trimSpaces t))
    else none
  | _ => none

/-- `Storage.filter_known_stories`: runs
`SELECT id FROM stories WHERE id IN {tuple(ids)}` built by f-string
interpolation of the RAW input list. The deduplicated `ids_tuple` the
source computes just before is unused, and the model mirrors that. The
call raises (`Except.error`) when SQLite rejects the interpolated value
list; otherwise it returns the ids of the stored rows that occur in the
query list, in table order. -/
def filter_known_stories (db : DB) (ids : List Int) : Except String (List Int) :=
  let ids_tuple := ids.eraseDups
  match parseSqlInList (pyTupleRepr ids) with
  | none => Except.error "sqlite3.OperationalError"
  | some qs => Except.ok ((db.map Row.id).filter (fun i => qs.contains i))

/-- `Storage.store_story`: one INSERT plus commit. The `id` column is
UNIQUE, so inserting an id that is already present raises
`sqlite3.IntegrityError` — uncaught, so it surfaces to the caller — and
leaves the table unchanged; otherwise the row is appended and the
function returns `True`. The result pairs the outcome of the call with
the table state after the call. -/
def store_story (db : DB) (item : StoryRecord) : Except String Bool × DB :=
  if db.any (fun r => r.id == item.id) then
    (Except.error "sqlite3.IntegrityError: UNIQUE constraint failed: stories.id", db)
  else
    (Except.ok true,
     db ++ [{ id := item.id, title := item.title, url := item.url.getD "",
              score := item.score, comments := item.comments, published := item.time }])

/-- A response of the topstories endpoint: `ok` is `requests.Response.ok`
(status < 400), `ids` the JSON array of integers the body parses to. -/
structure TopResponse where
  ok : Bool
  ids : List Int
deriving DecidableEq

/-- A response of the item endpoint for one id. -/
structure ItemResponse where
  ok : Bool
  item : HNItem
deriving DecidableEq

/-- The external world one run observes: the topstories response and, for
each id, the item endpoint response. -/
structure FeedEnv where
  top : TopResponse
  itemFor : Int → ItemResponse

/-- Progress-log interval of the batch fetch loop; it only affects log
output, never the returned data. -/
def PROGRESS_INTERVAL : Nat := 10

/-- `get_top_story_ids`: on a non-ok response, logs the failure and
returns the empty list; otherwise returns the parsed JSON array. -/
def get_top_story_ids (response : TopResponse) : List Int :=
  if !response.ok then [] else response.ids

/-- `get_stories_for_ids`: sequential fetch of each id. A non-ok response
or an item whose declared `type` is not "story" is skipped (`continue`)
and the loop moves on; an accepted story item is extended with
`comments := item["descendants"]` — an unguarded dict access that raises
`KeyError` when the field is absent, aborting the whole call — and with
`hnlink`, then appended to the result. -/
def get_stories_for_ids (env : FeedEnv) : List Int → Except String (List StoryRecord)
  | [] => Except.ok []
  | hn_id :: rest =>
    let response := env.itemFor hn_id
    if !response.ok then
      get_stories_for_ids env rest
    else if response.item.type ≠ some "story" then
      get_stories_for_ids env rest
    else
      match response.item.descendants with
      | none => Except.error "KeyError: descendants"
      | some d =>
        match get_stories_for_ids env rest with
        | Except.error e => Except.error e
        | Except.ok stories =>
          Except.ok
            ({ id := response.item.itemId, title := response.item.title,
               url := response.item.url, score := response.item.score,
               comments := d, time := response.item.time,
               hnlink := "https://news.ycombinator.com/item?id=" ++ toString hn_id } :: stories)

/-- Constant `N_TOP_STORIES`. -/
def N_TOP_STORIES : Nat := 50

/-- The sort key of the ranking step: `x["score"] + x["comments"]`. -/
def rankKey (x : StoryRecord) : Int := x.score + x.comments

/-- The call `sorted(new_stories, key=lambda x: x["score"] + x["comments"],
reverse=True)`. Python sorted is a stable merge sort; `reverse=True`
flips the comparison while still keeping equal-key elements in input
order, i.e. a stable sort with "a before b when key b ≤ key a". -/
def sortedByRank (new_stories : List StoryRecord) : List StoryRecord :=
  new_stories.mergeSort (fun a b => decide (rankKey b ≤ rankKey a))

/-- The ranking step of `run_daily_digest` (lines 189–190): stable
descending sort by `rankKey`, then truncation to the first
`N_TOP_STORIES` entries. -/
def rank (new_stories : List StoryRecord) : List StoryRecord :=
  (sortedByRank new_stories).take N_TOP_STORIES

/-- The `for article in new_stories: storage.store_story(article)` loop:
threads the table state, counts the insert calls that returned, and
aborts with the first uncaught `IntegrityError`. -/
def storeLoop (db : DB) : List StoryRecord → Except String (DB × Nat)
  | [] => Except.ok (db, 0)
  | article :: rest =>
    match store_story db article with
    | (Except.error e, _) => Except.error e
    | (Except.ok _, db1) =>
      match storeLoop db1 rest with
      | Except.error e => Except.error e
      | Except.ok (db2, n) => Except.ok (db2, n + 1)

/-- What one `run_daily_digest` invocation computed and did: the
intermediate id lists, the fetched new stories, the table state at the
end, and how many store / render (prepare_daily_digest) / send
(send_daily_digest) calls were made. -/
structure RunResult where
  topIds : List Int
  knownIds : List Int
  newIds : List Int
  newStories : List StoryRecord
  finalDb : DB
  storeCount : Nat
  renderCount : Nat
  sendCount : Nat
deriving DecidableEq

/-- `run_daily_digest`: the whole pipeline for a given environment and
initial table state (configuration loading is resolved by the caller
into these two arguments). An uncaught exception — a malformed filter
query, a duplicate insert, or a missing `descendants` key — aborts the
run as `Except.error`. The renderer and the notifier run exactly when
`new_stories` is non-empty; the model records their call counts, with
the rendered document itself (an external template) out of scope. -/
def run_daily_digest (env : FeedEnv) (db : DB) : Except String RunResult :=
  let top_story_ids := get_top_story_ids env.top
  match filter_known_stories db top_story_ids with
  | Except.error e => Except.error e
  | Except.ok known_story_ids =>
    let new_story_ids := top_story_ids.filter (fun i => !known_story_ids.contains i)
    match get_stories_for_ids env new_story_ids with
    | Except.error e => Except.error e
    | Except.ok new_stories =>
      match storeLoop db new_stories with
      | Except.error e => Except.error e
      | Except.ok (db1, nstores) =>
        let top_sorted_stories := rank new_stories
        if new_stories.isEmpty then
          Except.ok ⟨top_story_ids, known_story_ids, new_story_ids, new_stories,
                     db1, nstores, 0, 0⟩
        else
          Except.ok ⟨top_story_ids, known_story_ids, new_story_ids, new_stories,
                     db1, nstores, 1, 1⟩

/-- A concrete story item used by the witness environments: id 1,
score 10, 5 descendants, declared type "story". -/
def wStoryItem : HNItem := ⟨1, "A story", none, 10, some 5, 111, some "story"⟩

/-- A concrete environment: topstories succeeds with ids 1 and 2; the
item call succeeds with a story for id 1 and fails for every other id. -/
def wEnv : FeedEnv :=
  ⟨⟨true, [1, 2]⟩, fun i => if i = 1 then ⟨true, wStoryItem⟩ else ⟨false, wStoryItem⟩⟩

/-- A concrete environment whose topstories call fails. -/
def wEnvDown : FeedEnv := ⟨⟨false, [9]⟩, fun _ => ⟨false, wStoryItem⟩⟩

/-- A concrete environment where the item call for id 3 succeeds with a
story that has no descendants field. -/
def wEnvBad : FeedEnv :=
  ⟨⟨true, [3]⟩,
   fun i => if i = 3 then ⟨true, ⟨3, "t", none, 1, none, 2, some "story"⟩⟩
            else ⟨false, wStoryItem⟩⟩

/-- The record the run on `wEnv` fetches for id 1. -/
def wRecord : StoryRecord :=
  ⟨1, "A story", none, 10, 5, 111, "https://news.ycombinator.com/item?id=1"⟩

/-- The result of the run on `wEnv` starting from an empty table. -/
def wResult : RunResult :=
  ⟨[1, 2], [], [1, 2], [wRecord], [⟨1, "A story", "", 10, 5, 111⟩], 1, 1, 1⟩

/-- A record with composite key 3 + 2 = 5, used by the C5 witness. -/
def wRecA : StoryRecord := ⟨1, "a", none, 3, 2, 0, "x"⟩

/-- A second record with the same composite key 2 + 3 = 5. -/
def wRecB : StoryRecord := ⟨2, "b", none, 2, 3, 0, "y"⟩

/-! Theorems -/

/-- C7: an id whose item response is non-ok, or whose fetched item is not
declared a story, contributes no record and is skipped: the singleton
batch on it yields the empty ok result, and the batch result on any list
containing that id equals the result on the list with the occurrence
removed — the loop just continues with the remaining ids. -/
theorem c7_failed_item_skipped (env : FeedEnv) (hn_id : Int)
    (h : (env.itemFor hn_id).ok = false ∨ (env.itemFor hn_id).item.type ≠ some "story") :
    get_stories_for_ids env [hn_id] = Except.ok [] ∧
    ∀ pre post : List Int,
      get_stories_for_ids env (pre ++ hn_id :: post)
        = get_stories_for_ids env (pre ++ post) := by
  have step : ∀ post : List Int,
      get_stories_for_ids env (hn_id :: post) = get_stories_for_ids env post := by
    intro post
    rcases h with h | h
    · simp [get_stories_for_ids, h]
    · cases hok : (env.itemFor hn_id).ok with
      | false => simp [get_stories_for_ids, hok]
      | true => simp [get_stories_for_ids, hok, h]
  have key : ∀ pre post : List Int,
      get_stories_for_ids env (pre ++ hn_id :: post)
        = get_stories_for_ids env (pre ++ post) := by
    intro pre post
    induction pre with
    | nil => simpa using step post
    | cons a pre ih =>
      simp only [List.cons_append, get_stories_for_ids, List.append_eq]
      rw [ih]
  exact ⟨by simpa using key [] [], key⟩

/-- C7 witness: in `wEnv`, the item call for id 5 fails, so the batch on
`[2, 5, 7]` equals the batch on `[2, 7]`. -/
theorem c7_failed_item_skipped_witness :
    get_stories_for_ids wEnv ([2] ++ 5 :: [7]) = get_stories_for_ids wEnv ([2] ++ [7]) :=
  (c7_failed_item_skipped wEnv 5 (Or.inl rfl)).2 [2] [7]

/-- C10: a successfully fetched item that is declared a story but has no
descendants field makes the unguarded `item["descendants"]` access raise,
so whenever such an id occurs in the batch, the whole
`get_stories_for_ids` call fails with the KeyError instead of skipping
the item or returning a partial list. -/
theorem c10_missing_descendants_fatal (env : FeedEnv) (ids : List Int) (hn_id : Int)
    (hmem : hn_id ∈ ids)
    (hok : (env.itemFor hn_id).ok = true)
    (htype : (env.itemFor hn_id).item.type = some "story")
    (hdesc : (env.itemFor hn_id).item.descendants = none) :
    get_stories_for_ids env ids = Except.error "KeyError: descendants" := by
  induction ids with
  | nil => cases hmem
  | cons a rest ih =>
    rcases List.mem_cons.mp hmem with heq | hmem2
    · subst heq
      simp [get_stories_for_ids, hok, htype, hdesc]
    · have hrest := ih hmem2
      cases hoka : (env.itemFor a).ok with
      | false => simpa [get_stories_for_ids, hoka] using hrest
      | true =>
        by_cases htypea : (env.itemFor a).item.type = some "story"
        · cases hdesca : (env.itemFor a).item.descendants with
          | none => simp [get_stories_for_ids, hoka, htypea, hdesca]
          | some d => simp [get_stories_for_ids, hoka, htypea, hdesca, hrest]
        · simpa [get_stories_for_ids, hoka, htypea] using hrest

/-- C10 witness: a concrete batch holding one ok story that lacks a
descendants field fails as a whole. -/
theorem c10_missing_descendants_fatal_witness :
    get_stories_for_ids wEnvBad [3] = Except.error "KeyError: descendants" :=
  c10_missing_descendants_fatal wEnvBad [3] 3 (by simp) rfl rfl rfl

/-- C1: the claim fails on the code at a singleton query. With the story
with id 5 stored, `filter_known_stories` on `[5]` interpolates the Python
singleton-tuple text `(5,)` into the SQL; SQLite rejects the trailing
comma, so the call raises `sqlite3.OperationalError` instead of returning
`[5]` = Q ∩ A. Non-singleton queries do behave as claimed: `[5, 6]`
returns `[5]`, the empty query returns `[]` (SQLite accepts the empty
IN-list), and the duplicated query `[5, 5]` — two elements, hence no
trailing comma — returns `[5]` without double counting. -/
theorem c1_singleton_filter_raises :
    filter_known_stories [⟨5, "s", "u", 10, 3, 100⟩] [5]
      = Except.error "sqlite3.OperationalError" ∧
    filter_known_stories [⟨5, "s", "u", 10, 3, 100⟩] [5, 6] = Except.ok [5] ∧
    filter_known_stories [⟨5, "s", "u", 10, 3, 100⟩] [] = Except.ok [] ∧
    filter_known_stories [⟨5, "s", "u", 10, 3, 100⟩] [5, 5] = Except.ok [5] :=
  ⟨rfl, rfl, rfl, rfl⟩

/-- C3: the claim fails on the code. Storing the record with id 7 into an
empty table succeeds, but the immediate `filter_known_stories` on the
singleton `[7]` raises `sqlite3.OperationalError` (trailing comma of the
interpolated singleton tuple) instead of returning `[7]`. The write IS
visible in the table — the two-element query `[7, 8]` returns `[7]` — so
it is the singleton read-back demanded by the claim that breaks. -/
theorem c3_store_then_singleton_read_raises :
    (store_story [] ⟨7, "t", none, 1, 2, 3, "l"⟩).1 = Except.ok true ∧
    filter_known_stories (store_story [] ⟨7, "t", none, 1, 2, 3, "l"⟩).2 [7]
      = Except.error "sqlite3.OperationalError" ∧
    filter_known_stories (store_story [] ⟨7, "t", none, 1, 2, 3, "l"⟩).2 [7, 8]
      = Except.ok [7] :=
  ⟨rfl, rfl, rfl⟩

/-- C4: storing a record whose id is already present surfaces the
IntegrityError of the UNIQUE `id` column — it does not report success —
and leaves the table, in particular the existing row with that id,
unchanged. -/
theorem c4_store_duplicate_fails (db : DB) (item : StoryRecord)
    (h : ∃ r ∈ db, r.id = item.id) :
    (store_story db item).1
      = Except.error "sqlite3.IntegrityError: UNIQUE constraint failed: stories.id" ∧
    (store_story db item).2 = db := by
  obtain ⟨r, hr, hid⟩ := h
  have hany : db.any (fun r => r.id == item.id) = true := by
    rw [List.any_eq_true]
    exact ⟨r, hr, by simp [hid]⟩
  simp [store_story, hany]

/-- C4 witness: a concrete duplicate insert fails and changes nothing. -/
theorem c4_store_duplicate_fails_witness :
    (store_story [⟨5, "t", "u", 1, 2, 3⟩] ⟨5, "t2", some "u2", 7, 8, 9, "l"⟩).1
      = Except.error "sqlite3.IntegrityError: UNIQUE constraint failed: stories.id" ∧
    (store_story [⟨5, "t", "u", 1, 2, 3⟩] ⟨5, "t2", some "u2", 7, 8, 9, "l"⟩).2
      = [⟨5, "t", "u", 1, 2, 3⟩] :=
  c4_store_duplicate_fails _ _ ⟨⟨5, "t", "u", 1, 2, 3⟩, by simp, rfl⟩

/-- C8: `get_top_story_ids` returns the empty list on a non-ok
topstories response and the parsed JSON id array on an ok one. -/
theorem c8_get_top_story_ids_spec (response : TopResponse) :
    (response.ok = false → get_top_story_ids response = []) ∧
    (response.ok = true → get_top_story_ids response = response.ids) := by
  constructor <;> intro h <;> simp [get_top_story_ids, h]

/-- C8 witness: a concrete failing and a concrete succeeding response. -/
theorem c8_get_top_story_ids_spec_witness :
    get_top_story_ids ⟨false, [7]⟩ = [] ∧ get_top_story_ids ⟨true, [7, 8]⟩ = [7, 8] :=
  ⟨(c8_get_top_story_ids_spec ⟨false, [7]⟩).1 rfl,
   (c8_get_top_story_ids_spec ⟨true, [7, 8]⟩).2 rfl⟩

/-- Helper: the membership filter on the empty query list interpolates
the SQL text `... IN ()`, which SQLite accepts, and returns no ids. -/
theorem filter_known_stories_nil (db : DB) : filter_known_stories db [] = Except.ok [] := by
  show Except.ok ((db.map Row.id).filter (fun i => ([] : List Int).contains i)) = Except.ok []
  simp

/-- C2: when the topstories call fails, the run still completes: the id
lists are all empty, the table is unchanged with zero store calls, and
the renderer and notifier are never invoked. -/
theorem c2_top_failure_degrades (env : FeedEnv) (db : DB) (h : env.top.ok = false) :
    run_daily_digest env db = Except.ok ⟨[], [], [], [], db, 0, 0, 0⟩ := by
  have htop : get_top_story_ids env.top = [] := by
    simp [get_top_story_ids, h]
  simp [run_daily_digest, htop, filter_known_stories_nil, get_stories_for_ids, storeLoop]

/-- C2 witness: a concrete environment with a failing topstories call. -/
theorem c2_top_failure_degrades_witness :
    run_daily_digest wEnvDown [] = Except.ok ⟨[], [], [], [], [], 0, 0, 0⟩ :=
  c2_top_failure_degrades wEnvDown [] rfl

/-- Helper: dissection of a successful run into its pipeline stages and
the result fields they determine. -/
theorem run_daily_digest_ok (env : FeedEnv) (db : DB) (r : RunResult)
    (h : run_daily_digest env db = Except.ok r) :
    ∃ known_story_ids new_stories db1 nstores,
      filter_known_stories db (get_top_story_ids env.top) = Except.ok known_story_ids ∧
      get_stories_for_ids env
          ((get_top_story_ids env.top).filter (fun i => !known_story_ids.contains i))
        = Except.ok new_stories ∧
      storeLoop db new_stories = Except.ok (db1, nstores) ∧
      r = ⟨get_top_story_ids env.top, known_story_ids,
           (get_top_story_ids env.top).filter (fun i => !known_story_ids.contains i),
           new_stories, db1, nstores,
           if new_stories.isEmpty then 0 else 1,
           if new_stories.isEmpty then 0 else 1⟩ := by
  simp only [run_daily_digest] at h
  split at h
  · cases h
  · rename_i known_story_ids hf
    split at h
    · cases h
    · rename_i new_stories hs
      split at h
      · cases h
      · rename_i db1 nstores hl
        refine ⟨known_story_ids, new_stories, db1, nstores, hf, hs, hl, ?_⟩
        split at h
        · rename_i hempty
          cases h
          simp [hempty]
        · rename_i hempty
          cases h
          simp [hempty]

/-- C6: a completed run renders and sends exactly once when some new
record exists after filtering and fetching, and not at all when none
does. -/
theorem c6_render_send_guard (env : FeedEnv) (db : DB) (r : RunResult)
    (h : run_daily_digest env db = Except.ok r) :
    (r.newStories = [] → r.renderCount = 0 ∧ r.sendCount = 0) ∧
    (r.newStories ≠ [] → r.renderCount = 1 ∧ r.sendCount = 1) := by
  obtain ⟨known_story_ids, new_stories, db1, nstores, hf, hs, hl, hr⟩ :=
    run_daily_digest_ok env db r h
  subst hr
  constructor
  · intro hnil
    simp_all
  · intro hne
    simp_all

/-- C6 witness: the run on `wEnv` produces one new record and exactly one
render and one send call. -/
theorem c6_render_send_guard_witness :
    wResult.renderCount = 1 ∧ wResult.sendCount = 1 :=
  (c6_render_send_guard wEnv [] wResult rfl).2 (by simp [wResult])

/-- C9: in a completed run the new-id list is literally the filter of the
fetched top ids by non-membership in the known set — hence an
order-preserving sublist of the top ids whose members are precisely the
top ids that are not known. -/
theorem c9_new_ids_spec (env : FeedEnv) (db : DB) (r : RunResult)
    (h : run_daily_digest env db = Except.ok r) :
    r.newIds = r.topIds.filter (fun i => !r.knownIds.contains i) ∧
    r.newIds.Sublist r.topIds ∧
    ∀ i : Int, i ∈ r.newIds ↔ (i ∈ r.topIds ∧ i ∉ r.knownIds) := by
  obtain ⟨known_story_ids, new_stories, db1, nstores, hf, hs, hl, hr⟩ :=
    run_daily_digest_ok env db r h
  subst hr
  refine ⟨rfl, List.filter_sublist _, ?_⟩
  intro i
  simp [List.mem_filter]

/-- C9 witness: in the run on `wEnv`, ids 1 and 2 are fetched, none is
known, and the new-id list is the filter of the top ids. -/
theorem c9_new_ids_spec_witness :
    wResult.newIds = wResult.topIds.filter (fun i => !wResult.knownIds.contains i) :=
  (c9_new_ids_spec wEnv [] wResult rfl).1

/-- C5: the ranking step truncates a stable descending sort: the result
is the first N_TOP_STORIES = 50 entries of `sortedByRank`, which is a
permutation of the input, pairwise descending in score + comments, and
keeps every equal-key subsequence of the input in its original relative
order (stability); the result length is `min 50 (input length)`, so a
shorter input is returned whole, sorted. -/
theorem c5_rank_spec (new_stories : List StoryRecord) :
    rank new_stories = (sortedByRank new_stories).take N_TOP_STORIES ∧
    (sortedByRank new_stories).Perm new_stories ∧
    (sortedByRank new_stories).Pairwise (fun a b => rankKey b ≤ rankKey a) ∧
    (∀ c : List StoryRecord, c.Sublist new_stories →
       c.Pairwise (fun a b => rankKey a = rankKey b) →
       c.Sublist (sortedByRank new_stories)) ∧
    (rank new_stories).length = min N_TOP_STORIES new_stories.length := by
  have htrans : ∀ a b c : StoryRecord,
      decide (rankKey b ≤ rankKey a) → decide (rankKey c ≤ rankKey b) →
      decide (rankKey c ≤ rankKey a) := by
    intro a b c h1 h2
    simp only [decide_eq_true_eq] at h1 h2 ⊢
    exact le_trans h2 h1
  have htotal : ∀ a b : StoryRecord,
      (decide (rankKey b ≤ rankKey a) || decide (rankKey a ≤ rankKey b)) = true := by
    intro a b
    simp only [Bool.or_eq_true, decide_eq_true_eq]
    exact le_total _ _
  refine ⟨rfl, List.mergeSort_perm _ _, ?_, ?_, ?_⟩
  · have hs := List.sorted_mergeSort htrans htotal new_stories
    exact hs.imp (fun h => by simpa using h)
  · intro c hsub hpair
    refine List.sublist_mergeSort htrans htotal ?_ hsub
    exact hpair.imp (fun h => by simp [h])
  · simp [rank, sortedByRank]

/-- C5 witness: a concrete equal-key pair keeps its input order through
the sort — the stability conjunct instantiated at the pair itself with
its hypotheses discharged. -/
theorem c5_rank_spec_witness :
    [wRecA, wRecB].Sublist (sortedByRank [wRecA, wRecB]) :=
  (c5_rank_spec [wRecA, wRecB]).2.2.2.1 [wRecA, wRecB] (List.Sublist.refl _) (by decide)

end HNDaily
